import Mathlib

/-!
Verification model of the cro-analyzer-backend repository.

The TypeScript sources are shallowly embedded: each repository/service
method becomes a pure Lean function over explicit state (lists of table
rows), external collaborators (the SQL driver, the JWT library, the
scrape/LLM/PDF pipeline) are passed in as explicit outcome parameters, and
the HTTP handlers become functions from request data and database state to
a reply plus the successor database state.

Conventions used throughout:
- a SQL `NULL`-able column is an `Option`;
- the JSON metadata blob is kept structured at the repository layer
  (`JSON.parse` / `JSON.stringify` round-trip is the identity there), while
  the migration layer, which copies the column as uninterpreted text
  (`row.metadata || '\x7b\x7d'`), keeps it as a raw `String`;
- timestamps (`new Date().toISOString()`) are uninterpreted strings supplied by
  the caller;
- generated UUIDs are supplied by the caller; freshness is an explicit
  hypothesis where a proof needs it.
-/

/-- The analysis status column: `'pending' | 'processing' | 'completed' | 'failed'`
(src/unnamed/part_003, `AnalysisRecord.status`). -/
inductive Status where
  | pending
  | processing
  | completed
  | failed
deriving DecidableEq

/-- The structured metadata object stored (JSON-serialized) in the
`metadata` column (src/unnamed/part_003, `AnalysisRecord.metadata`). -/
structure AnalysisMetadata where
  wordCount : Nat
  analysisTokens : Nat
  pageSize : Nat
  loadTime : Option Nat
  screenshotPath : Option String
deriving DecidableEq

/-- `Partial<AnalysisRecord['metadata']>`: every field optional; `none`
models an absent property. -/
structure MetadataPatch where
  wordCount : Option Nat := none
  analysisTokens : Option Nat := none
  pageSize : Option Nat := none
  loadTime : Option Nat := none
  screenshotPath : Option String := none
deriving DecidableEq

/-- The JS object spread `\x7b ...old, ...patch \x7d`: properties present in the
patch override the old object, all other properties keep their old value.
Used by `AnalysisRepository.create` (defaults overlay) and
`AnalysisRepository.update` (metadata merge). -/
def mergeMetadata (old : AnalysisMetadata) (p : MetadataPatch) : AnalysisMetadata :=
  { wordCount := p.wordCount.getD old.wordCount
    analysisTokens := p.analysisTokens.getD old.analysisTokens
    pageSize := p.pageSize.getD old.pageSize
    loadTime := match p.loadTime with
      | some v => some v
      | none => old.loadTime
    screenshotPath := match p.screenshotPath with
      | some v => some v
      | none => old.screenshotPath }

/-- One row of the `analyses` table as the repository layer sees it.
`user_id` is the ownership column; in the schema variant that lacks the
column, and for rows inserted by `AnalysisRepository.create` (whose INSERT
lists no `user_id`), it is `none`. -/
structure AnalysisDbRow where
  id : String
  user_id : Option String
  url : String
  page_title : Option String
  analysis : String
  pdf_path : Option String
  metadata : AnalysisMetadata
  status : Status
  error_message : Option String
  created_at : String
  updated_at : String
deriving DecidableEq

/-- The in-memory `AnalysisRecord` produced by
`AnalysisRepository.mapRowToRecord`
(src/my-fastify-app/src/repositories/analysis.repository.ts:178-191).
`userId` is `Option` because the mapper builds an object literal and a JS
property read on an absent key yields `undefined` (= `none`). -/
structure AnalysisRecord where
  id : String
  url : String
  pageTitle : Option String
  analysis : String
  pdfPath : Option String
  metadata : AnalysisMetadata
  status : Status
  errorMessage : Option String
  createdAt : String
  updatedAt : String
  userId : Option String
deriving DecidableEq

/-- `CreateAnalysisRequest` (src/unnamed/part_003:75-80). -/
structure CreateAnalysisRequest where
  url : String
  pageTitle : Option String := none
  metadata : Option MetadataPatch := none
  status : Option Status := none
deriving DecidableEq

/-- `UpdateAnalysisRequest` (src/unnamed/part_003:82-88); `none` models an
absent (`undefined`) property, which the SQL builder skips. -/
structure UpdateAnalysisRequest where
  analysis : Option String := none
  pdfPath : Option String := none
  metadata : Option MetadataPatch := none
  status : Option Status := none
  errorMessage : Option String := none
deriving DecidableEq

/-- `SELECT ... WHERE <key> = ?` returning the first matching row. -/
def findBy (key : α → String) (db : List α) (id : String) : Option α :=
  db.find? (fun r => key r = id)

/-- `UPDATE ... WHERE <key> = ?`: every matching row is replaced by `x`. -/
def replaceBy (key : α → String) (db : List α) (id : String) (x : α) : List α :=
  db.map (fun r => if key r = id then x else r)

namespace AnalysisRepository

/-- `mapRowToRecord` (analysis.repository.ts:178-191). The object literal
names every column except `user_id`, so the record's `userId` property is
absent (`undefined`), modeled as `none`. -/
def mapRowToRecord (row : AnalysisDbRow) : AnalysisRecord :=
  { id := row.id
    url := row.url
    pageTitle := row.page_title
    analysis := row.analysis
    pdfPath := row.pdf_path
    metadata := row.metadata
    status := row.status
    errorMessage := row.error_message
    createdAt := row.created_at
    updatedAt := row.updated_at
    userId := none }

/-- `findById` (analysis.repository.ts:50-57). -/
def findById (db : List AnalysisDbRow) (id : String) : Option AnalysisRecord :=
  (findBy (fun r => r.id) db id).map mapRowToRecord

/-- The row inserted by `create` (analysis.repository.ts:12-48): `analysis`
starts empty, `pdf_path` and `error_message` start `NULL`, `status` is the
literal `'pending'` (the request's `status` field is never read), and
`metadata` is `\x7b wordCount: 0, analysisTokens: 0, pageSize: 0, ...data.metadata \x7d`.
The INSERT lists no `user_id` column (the second `userId` argument passed
by the route is not part of this method's signature and is dropped). -/
def createRow (data : CreateAnalysisRequest) (newId now : String) : AnalysisDbRow :=
  { id := newId
    user_id := none
    url := data.url
    page_title := data.pageTitle
    analysis := ""
    pdf_path := none
    metadata := mergeMetadata
      { wordCount := 0, analysisTokens := 0, pageSize := 0
        loadTime := none, screenshotPath := none }
      (data.metadata.getD {})
    status := Status.pending
    error_message := none
    created_at := now
    updated_at := now }

/-- `create` (analysis.repository.ts:12-48): INSERT the row (the PRIMARY
KEY constraint rejects a duplicate id), then re-read it via `findById`. -/
def create (db : List AnalysisDbRow) (data : CreateAnalysisRequest) (newId now : String) :
    Except String (List AnalysisDbRow × AnalysisRecord) :=
  if db.any (fun r => r.id = newId) then
    Except.error "UNIQUE constraint failed: analyses.id"
  else
    let db' := db ++ [createRow data newId now]
    match findById db' newId with
    | none => Except.error "Failed to create analysis record"
    | some record => Except.ok (db', record)

/-- The row produced by the dynamic `UPDATE analyses SET ...` of `update`
(analysis.repository.ts:59-100): each column is SET only when the
corresponding request property is not `undefined`; `metadata` is SET to the
merge of the existing record's metadata with the patch; `updated_at` is
always stamped. All other columns (including `user_id`) are untouched. -/
def updateFields (row : AnalysisDbRow) (data : UpdateAnalysisRequest) (now : String) :
    AnalysisDbRow :=
  { row with
    analysis := data.analysis.getD row.analysis
    pdf_path := match data.pdfPath with
      | some v => some v
      | none => row.pdf_path
    metadata := match data.metadata with
      | some m => mergeMetadata row.metadata m
      | none => row.metadata
    status := data.status.getD row.status
    error_message := match data.errorMessage with
      | some v => some v
      | none => row.error_message
    updated_at := now }

/-- `update` (analysis.repository.ts:59-100): look the record up, return
`null` when absent, otherwise rewrite the supplied columns and re-read. -/
def update (db : List AnalysisDbRow) (id : String) (data : UpdateAnalysisRequest)
    (now : String) : Option AnalysisRecord × List AnalysisDbRow :=
  match findBy (fun r => r.id) db id with
  | none => (none, db)
  | some existing =>
    let row' := updateFields existing data now
    let db' := replaceBy (fun r => r.id) db id row'
    (findById db' id, db')

end AnalysisRepository

/-- One row of the `users` table (schema in src/unnamed/part_000:155-166).
`UserRepository.mapRowToUser` (user.repository.ts:169-182) renames these
columns to camelCase and coerces `is_active` with `Boolean(...)`; since the
row already carries a `Bool`, the mapped entity holds the same values and
the row type stands for both. -/
structure UserRow where
  id : String
  email : String
  password : String
  first_name : String
  last_name : String
  role : String
  is_active : Bool
  last_login_at : Option String
  created_at : String
  updated_at : String
deriving DecidableEq

/-- `CreateUserRequest` (src/unnamed/part_003:14-20). -/
structure CreateUserRequest where
  email : String
  password : String
  firstName : String
  lastName : String
  role : Option String := none
deriving DecidableEq

/-- `UpdateUserRequest` (src/unnamed/part_003:22-27); `none` models an
absent (`undefined`) property. -/
structure UpdateUserRequest where
  firstName : Option String := none
  lastName : Option String := none
  role : Option String := none
  isActive : Option Bool := none
deriving DecidableEq

/-- JS `String.prototype.toLowerCase` (ASCII case folding). -/
def jsToLower (s : String) : String :=
  String.mk (s.data.map Char.toLower)

namespace UserRepository

/-- `findById` (user.repository.ts:47-54). -/
def findById (db : List UserRow) (id : String) : Option UserRow :=
  findBy (fun u => u.id) db id

/-- `findByEmail` (user.repository.ts:56-63): the argument is lowercased
before the equality lookup (stored emails are already lowercase). -/
def findByEmail (db : List UserRow) (email : String) : Option UserRow :=
  db.find? (fun u => u.email = jsToLower email)

/-- The row inserted by `create` (user.repository.ts:12-45): email
lowercased, password replaced by its bcrypt hash (the hash is supplied by
the caller, standing for `bcrypt.hash(data.password, 12)`), role defaulted
to `'user'`, `is_active` true, `last_login_at` NULL. -/
def createRow (data : CreateUserRequest) (newId now hash : String) : UserRow :=
  { id := newId
    email := jsToLower data.email
    password := hash
    first_name := data.firstName
    last_name := data.lastName
    role := data.role.getD "user"
    is_active := true
    last_login_at := none
    created_at := now
    updated_at := now }

/-- `create` (user.repository.ts:12-45): INSERT (the `id` PRIMARY KEY and
the `email UNIQUE` constraint each reject duplicates), then re-read. -/
def create (db : List UserRow) (data : CreateUserRequest) (newId now hash : String) :
    Except String (List UserRow × UserRow) :=
  if db.any (fun u => u.id = newId) then
    Except.error "UNIQUE constraint failed: users.id"
  else if db.any (fun u => u.email = jsToLower data.email) then
    Except.error "UNIQUE constraint failed: users.email"
  else
    let db' := db ++ [createRow data newId now hash]
    match findById db' newId with
    | none => Except.error "Failed to create user"
    | some user => Except.ok (db', user)

/-- The row produced by the dynamic `UPDATE users SET ...` of `update`
(user.repository.ts:65-101): `first_name`, `last_name`, `role`,
`is_active` are SET only when supplied; `updated_at` is always stamped;
`email`, `password`, `last_login_at`, `created_at`, `id` are untouched. -/
def updateFields (row : UserRow) (data : UpdateUserRequest) (now : String) : UserRow :=
  { row with
    first_name := data.firstName.getD row.first_name
    last_name := data.lastName.getD row.last_name
    role := data.role.getD row.role
    is_active := data.isActive.getD row.is_active
    updated_at := now }

/-- `update` (user.repository.ts:65-101). -/
def update (db : List UserRow) (id : String) (data : UpdateUserRequest) (now : String) :
    Option UserRow × List UserRow :=
  match findById db id with
  | none => (none, db)
  | some existing =>
    let row' := updateFields existing data now
    let db' := replaceBy (fun u => u.id) db id row'
    (findById db' id, db')

end UserRepository

/-- The decoded JWT payload (auth.service.ts:5-11). -/
structure JWTPayload where
  userId : String
  email : String
  role : String
  iat : Nat
  exp : Nat
deriving DecidableEq

/-- The outcome of `jwt.verify(token, secret)`, supplied by the caller: a
successfully decoded payload (valid signature, unexpired), a
`JsonWebTokenError` (bad signature/malformed), or a `TokenExpiredError`. -/
inductive JwtVerifyOutcome where
  | ok (payload : JWTPayload)
  | sigInvalid
  | expired
deriving DecidableEq

namespace AuthServiceImpl

/-- `verifyToken` (auth.service.ts:93-113): after a successful decode the
referenced user is re-read and must exist and be active, otherwise
`Error('User not found or inactive')` is thrown (and rethrown by the catch,
since it is no `jwt` error class). In the library, `TokenExpiredError`
extends `JsonWebTokenError`, so the first `instanceof` also catches an
expired token and both decode failures surface as `'Invalid token'`. -/
def verifyToken (outcome : JwtVerifyOutcome) (db : List UserRow) :
    Except String JWTPayload :=
  match outcome with
  | JwtVerifyOutcome.sigInvalid => Except.error "Invalid token"
  | JwtVerifyOutcome.expired => Except.error "Invalid token"
  | JwtVerifyOutcome.ok payload =>
    match UserRepository.findById db payload.userId with
    | none => Except.error "User not found or inactive"
    | some user =>
      if user.is_active then Except.ok payload
      else Except.error "User not found or inactive"

/-- `register` (auth.service.ts:68-91): reject when `findByEmail` already
finds a user, otherwise create the user (the issued JWT carries no state we
track, so the result is the created user). -/
def register (db : List UserRow) (data : CreateUserRequest) (newId now hash : String) :
    Except String UserRow × List UserRow :=
  match UserRepository.findByEmail db data.email with
  | some _ => (Except.error "User with this email already exists", db)
  | none =>
    match UserRepository.create db data newId now hash with
    | Except.error e => (Except.error e, db)
    | Except.ok (db', user) => (Except.ok user, db')

end AuthServiceImpl

/-- Prefix test on character lists (helper for `jsIncludes`). -/
def beginsWithChars : List Char → List Char → Bool
  | _, [] => true
  | [], _ :: _ => false
  | a :: as, b :: bs => a = b && beginsWithChars as bs

/-- Occurrence test on character lists (helper for `jsIncludes`). -/
def containsChars : List Char → List Char → Bool
  | l, pat =>
    beginsWithChars l pat ||
      match l with
      | [] => false
      | _ :: as => containsChars as pat

/-- JS `String.prototype.includes`: `pat` occurs somewhere in `s`. -/
def jsIncludes (s pat : String) : Bool :=
  containsChars s.data pat.data

/-- HTTP status chosen by the `POST /register` handler
(src/my-fastify-app/src/services/cro.service.ts:116-166, authRoutes): 201
on success, 409 when the error message contains `'already exists'`, 500
otherwise. -/
def registerRouteStatus (r : Except String UserRow) : Nat :=
  match r with
  | Except.ok _ => 201
  | Except.error msg => if jsIncludes msg "already exists" then 409 else 500

/-- Reply of the `GET /api/cro/analysis/:id` handler
(src/my-fastify-app/src/routes/cro.route.ts:111-141). -/
inductive GetAnalysisReply where
  | ok (record : AnalysisRecord)
  | authRequired
  | notFound
  | accessDenied
deriving DecidableEq

namespace CroRoute

/-- The `GET /analysis/:id` handler (cro.route.ts:111-141): 401 without an
authenticated user, 404 when `findById` yields nothing, 403 when
`analysis.userId !== request.user.userId`, otherwise the record. -/
def getAnalysisById (db : List AnalysisDbRow) (user : Option JWTPayload) (id : String) :
    GetAnalysisReply :=
  match user with
  | none => GetAnalysisReply.authRequired
  | some u =>
    match AnalysisRepository.findById db id with
    | none => GetAnalysisReply.notFound
    | some record =>
      if record.userId = some u.userId then GetAnalysisReply.ok record
      else GetAnalysisReply.accessDenied

/-- `croService.scrapePage` result (`\x7b html, text \x7d`). -/
structure PageData where
  html : String
  text : String
deriving DecidableEq

end CroRoute

instance {ε α : Type} [DecidableEq ε] [DecidableEq α] : DecidableEq (Except ε α) := fun x y =>
  match x, y with
  | Except.error a, Except.error b => decidable_of_iff (a = b) (by simp)
  | Except.error _, Except.ok _ => isFalse (by simp)
  | Except.ok _, Except.error _ => isFalse (by simp)
  | Except.ok a, Except.ok b => decidable_of_iff (a = b) (by simp)

namespace CroRoute

/-- The externally determined outcomes of one analyze request:
whether `fastify.croService` is registered, and the results of the scrape,
LLM, and PDF-render collaborator calls (a rejected promise is `error`). -/
structure Scenario where
  croAvailable : Bool
  scrape : Except String PageData
  llm : Except String String
  pdf : Except String Unit
deriving DecidableEq

/-- The `POST /analyze` handler (cro.route.ts:9-108) on the authenticated,
url-present path, as the HTTP status plus the list of database states after
each persistence step (head = initial state). The handler creates the
record, bumps it to `processing`, and then either marks it `failed` when
the CRO service is unavailable, or runs scrape → metadata update → LLM →
PDF → completion update. A rejection of any of the three collaborator
calls jumps to the catch block, which only logs ("we don't have the
analysis ID here ... we'll just log the error") and replies 500 — no
further database write happens there; a failure of `create` itself reaches
the same catch with nothing persisted. -/
def analyzeRun (db : List AnalysisDbRow) (url : String) (sc : Scenario)
    (newId now : String) : Nat × List (List AnalysisDbRow) :=
  match AnalysisRepository.create db { url := url, status := some Status.pending } newId now with
  | Except.error _ => (500, [db])
  | Except.ok (db1, record) =>
    let (_, db2) := AnalysisRepository.update db1 record.id
      { status := some Status.processing } now
    if sc.croAvailable then
      match sc.scrape with
      | Except.error _ => (500, [db, db1, db2])
      | Except.ok pageData =>
        let (_, db3) := AnalysisRepository.update db2 record.id
          { metadata := some
              { wordCount := some (pageData.text.splitOn " ").length
                pageSize := some pageData.html.length
                screenshotPath := some "landing-page-snapshot.png" } } now
        match sc.llm with
        | Except.error _ => (500, [db, db1, db2, db3])
        | Except.ok analysisText =>
          match sc.pdf with
          | Except.error _ => (500, [db, db1, db2, db3])
          | Except.ok _ =>
            let pdfPath := "reports/CRO_Report_" ++ record.id ++ ".pdf"
            let (_, db4) := AnalysisRepository.update db3 record.id
              { analysis := some analysisText
                pdfPath := some pdfPath
                status := some Status.completed
                metadata := some { analysisTokens := some analysisText.length } } now
            (200, [db, db1, db2, db3, db4])
    else
      let (_, db3) := AnalysisRepository.update db2 record.id
        { status := some Status.failed
          errorMessage := some "CRO Service not available" } now
      (500, [db, db1, db2, db3])

/-- The database state the analyze request leaves behind. -/
def analyzeFinal (db : List AnalysisDbRow) (url : String) (sc : Scenario)
    (newId now : String) : List AnalysisDbRow :=
  ((analyzeRun db url sc newId now).2).getLast?.getD db

end CroRoute

/-- The persisted status of the row with the given id, if present. -/
def statusOf (db : List AnalysisDbRow) (id : String) : Option Status :=
  (findBy (fun r => r.id) db id).map (fun r => r.status)

/-- The persisted error message of the row with the given id, if present. -/
def errorOf (db : List AnalysisDbRow) (id : String) : Option (Option String) :=
  (findBy (fun r => r.id) db id).map (fun r => r.error_message)

/-- The status the analyze flow leaves the new record in, as a function of
the collaborator outcomes (read off the handler's branches). -/
def expectedFinalStatus (sc : CroRoute.Scenario) : Status :=
  if sc.croAvailable then
    match sc.scrape, sc.llm, sc.pdf with
    | Except.ok _, Except.ok _, Except.ok _ => Status.completed
    | _, _, _ => Status.processing
  else Status.failed

/-- `config.type` (src/unnamed/part_004, `DatabaseConfig.type`). -/
inductive DbType where
  | sqlite
  | postgresql
deriving DecidableEq

namespace DatabaseService

/-- `close` (src/unnamed/part_000:104-121 and
src/my-fastify-app/src/services/database.service.ts:93-110), with the
engine's close outcome supplied by the caller. On the sqlite branch the
method does `return new Promise(...)` inside the `try` without awaiting,
so a rejection bypasses the `catch` and propagates as-is; on the pg branch
`await this.db.end()` throwing reaches the `catch`, which logs and then
rethrows (`throw error`). Either way an engine error reaches the caller. -/
def close (t : DbType) (engineClose : Except String Unit) : Except String Unit :=
  match t with
  | DbType.sqlite => engineClose
  | DbType.postgresql =>
    match engineClose with
    | Except.ok _ => Except.ok ()
    | Except.error e => Except.error e

/-- `healthCheck` (src/unnamed/part_000:84-102): the sqlite callback always
resolves with `!err`, and the pg branch's `catch` swallows the error and
returns `false` — this method, unlike `close`, never throws. -/
def healthCheck (t : DbType) (probe : Except String Bool) : Bool :=
  match t with
  | DbType.sqlite =>
    match probe with
    | Except.ok b => b
    | Except.error _ => false
  | DbType.postgresql =>
    match probe with
    | Except.ok b => b
    | Except.error _ => false

end DatabaseService

/-- One row of the `analyses` table as the migration code sees it
(`SELECT * FROM analyses` returning raw column values): `metadata` and
`status` are uninterpreted text (both declared NOT NULL, so plain `String`), the
nullable columns are `Option`, and `user_id` is `none` when the column is
absent or NULL. -/
structure RawRow where
  id : String
  user_id : Option String
  url : String
  page_title : Option String
  analysis : Option String
  pdf_path : Option String
  metadata : String
  status : String
  error_message : Option String
  created_at : String
  updated_at : String
deriving DecidableEq

/-- A SQLite index: schema-global name, plus the table it lives on
(dropping a table drops its indexes; renaming a table keeps them). -/
structure IndexEntry where
  name : String
  tbl : String
deriving DecidableEq

/-- The SQLite database state the migration procedures act on:
`users` / `analyses` are `none` when the table does not exist; the
analyses table carries a flag recording whether the `user_id` column is
present, plus its rows. -/
@[ext]
structure Db where
  users : Option (List UserRow)
  analyses : Option (Bool × List RawRow)
  indexes : List IndexEntry
deriving DecidableEq

/-- `CREATE INDEX IF NOT EXISTS name ON tbl(...)`: SQLite index names are
schema-global, so the statement no-ops whenever any index of that name
exists, regardless of its table. -/
def createIndexIfNotExists (db : Db) (n t : String) : Db :=
  if db.indexes.any (fun e => e.name = n) then db
  else { db with indexes := db.indexes ++ [{ name := n, tbl := t }] }

/-- `CREATE TABLE IF NOT EXISTS users (...)` (src/unnamed/part_000:155-167). -/
def ensureUsersTable (db : Db) : Db :=
  { db with users := some (db.users.getD []) }

namespace DatabaseService

/-- `createDefaultUserIfNeeded` (src/unnamed/part_000:343-374):
`SELECT * FROM users LIMIT 1`; when a user exists return it (its id is all
that is used), otherwise INSERT the synthesized `default-admin-user` admin
row and return that id. Returns the chosen id together with the users
table afterwards. -/
def createDefaultUserIfNeeded (users : List UserRow) (now : String) :
    String × List UserRow :=
  match users with
  | u :: _ => (u.id, users)
  | [] =>
    let dflt : UserRow :=
      { id := "default-admin-user"
        email := "admin@cro-analyzer.com"
        password := "default-password-hash"
        first_name := "Default"
        last_name := "Admin"
        role := "admin"
        is_active := true
        last_login_at := none
        created_at := now
        updated_at := now }
    ("default-admin-user", [dflt])

/-- `recreateAnalysesTableWithUserId` (src/unnamed/part_000:275-341):
read all existing rows (an absent table reads as no rows, via the
try/catch), create `analyses_new` with the `user_id` column, create the
four indexes with IF NOT EXISTS (their schema-global names may already be
taken by the old table's indexes, in which case nothing is created),
choose/synthesize the default user, reinsert every row with
`user_id = defaultUser.id` and the `row.metadata || '\x7b\x7d'` /
`row.status || 'pending'` fallbacks, then `DROP TABLE analyses` (which
drops the old table's indexes) and rename `analyses_new` to `analyses`
(renaming keeps its indexes under their names). -/
def recreateAnalysesTableWithUserId (db : Db) (now : String) : Db :=
  let existingData := (db.analyses.map (fun p => p.2)).getD []
  let db1 := createIndexIfNotExists db "idx_analyses_user_id" "analyses_new"
  let db2 := createIndexIfNotExists db1 "idx_analyses_status" "analyses_new"
  let db3 := createIndexIfNotExists db2 "idx_analyses_created_at" "analyses_new"
  let db4 := createIndexIfNotExists db3 "idx_analyses_url" "analyses_new"
  let du := createDefaultUserIfNeeded (db4.users.getD []) now
  let newRows := existingData.map (fun r =>
    { r with
      user_id := some du.1
      metadata := if r.metadata = "" then "\x7b\x7d" else r.metadata
      status := if r.status = "" then "pending" else r.status })
  { users := some du.2
    analyses := some (true, newRows)
    indexes := (db4.indexes.filter (fun e => e.tbl ≠ "analyses")).map
      (fun e => if e.tbl = "analyses_new" then { e with tbl := "analyses" } else e) }

/-- `migrateAnalysesTable` (src/unnamed/part_000:193-242), sqlite engine:
when the table is absent, create it (with `user_id`) and its four indexes;
when it exists without the `user_id` column, rewrite it via
`recreateAnalysesTableWithUserId`; when the column is already there,
do nothing. -/
def migrateAnalysesTable (db : Db) (now : String) : Db :=
  match db.analyses with
  | none =>
    let db1 : Db := { db with analyses := some (true, []) }
    let db2 := createIndexIfNotExists db1 "idx_analyses_user_id" "analyses"
    let db3 := createIndexIfNotExists db2 "idx_analyses_status" "analyses"
    let db4 := createIndexIfNotExists db3 "idx_analyses_created_at" "analyses"
    createIndexIfNotExists db4 "idx_analyses_url" "analyses"
  | some (hasUserId, _) =>
    if hasUserId then db else recreateAnalysesTableWithUserId db now

/-- `runMigrations` (src/unnamed/part_000:151-191), sqlite engine: ensure
the users table and its three indexes, then bring the analyses table up to
date. -/
def runMigrations (db : Db) (now : String) : Db :=
  migrateAnalysesTable
    (createIndexIfNotExists
      (createIndexIfNotExists
        (createIndexIfNotExists (ensureUsersTable db) "idx_users_email" "users")
        "idx_users_role" "users")
      "idx_users_is_active" "users")
    now

end DatabaseService

namespace MigrationService

/-- `createDefaultUserIfNeeded`
(src/my-fastify-app/src/services/migration.service.ts:171-207): when the
users query throws (table absent) return the placeholder id without
inserting; when a user exists return the first; otherwise INSERT the
synthesized admin row. -/
def createDefaultUserIfNeeded (users : Option (List UserRow)) (now : String) :
    String × Option (List UserRow) :=
  match users with
  | none => ("default-admin-user", none)
  | some l =>
    match l with
    | u :: _ => (u.id, some l)
    | [] =>
      let dflt : UserRow :=
        { id := "default-admin-user"
          email := "admin@cro-analyzer.com"
          password := "$2b$10$default.hashed.password.for.admin.user"
          first_name := "Admin"
          last_name := "User"
          role := "admin"
          is_active := true
          last_login_at := none
          created_at := now
          updated_at := now }
      ("default-admin-user", some [dflt])

/-- `recreateAnalysesTable` (migration.service.ts:100-169): read all
existing rows, `DROP TABLE IF EXISTS analyses` (dropping its indexes),
create the table anew with `user_id`, create the four indexes, pick the
default user, and reinsert every row with `user_id = defaultUser.id`
(every other column copied verbatim — this version has no text
fallbacks). -/
def recreateAnalysesTable (db : Db) (now : String) : Db :=
  let existingData := (db.analyses.map (fun p => p.2)).getD []
  let db1 : Db :=
    { db with
      analyses := some (true, [])
      indexes := db.indexes.filter (fun e => e.tbl ≠ "analyses") }
  let db2 := createIndexIfNotExists db1 "idx_analyses_user_id" "analyses"
  let db3 := createIndexIfNotExists db2 "idx_analyses_status" "analyses"
  let db4 := createIndexIfNotExists db3 "idx_analyses_created_at" "analyses"
  let db5 := createIndexIfNotExists db4 "idx_analyses_url" "analyses"
  let du := createDefaultUserIfNeeded db5.users now
  { users := du.2
    analyses := some (true, existingData.map (fun r => { r with user_id := some du.1 }))
    indexes := db5.indexes }

/-- `runMigrations` (migration.service.ts:10-41), sqlite engine: "For
SQLite, we'll always recreate the table to ensure proper schema" — every
run goes through `recreateAnalysesTable`. -/
def runMigrations (db : Db) (now : String) : Db :=
  recreateAnalysesTable db now

end MigrationService

section Lemmas

variable {α : Type} {key : α → String}

theorem findBy_eq_none {db : List α} {id : String}
    (h : ∀ r ∈ db, key r ≠ id) : findBy key db id = none := by
  unfold findBy
  rw [List.find?_eq_none]
  intro x hx
  simp [h x hx]

theorem findBy_mem {db : List α} {id : String} {r : α}
    (h : findBy key db id = some r) : r ∈ db ∧ key r = id := by
  unfold findBy at h
  exact ⟨List.mem_of_find?_eq_some h, by simpa using List.find?_some h⟩

theorem findBy_append_fresh {db : List α} {x : α} {id : String}
    (hx : key x = id) (h : ∀ r ∈ db, key r ≠ id) :
    findBy key (db ++ [x]) id = some x := by
  induction db with
  | nil => simp [findBy, List.find?_cons, hx]
  | cons a l ih =>
    have ha : ¬ (key a = id) := h a (by simp)
    unfold findBy at ih ⊢
    rw [List.cons_append, List.find?_cons, decide_eq_false ha]
    exact ih (fun r hr => h r (by simp [hr]))

theorem findBy_append_other {db : List α} {x : α} {id : String}
    (hx : key x ≠ id) : findBy key (db ++ [x]) id = findBy key db id := by
  induction db with
  | nil => simp [findBy, List.find?_cons, decide_eq_false hx]
  | cons a l ih =>
    unfold findBy at ih ⊢
    rw [List.cons_append, List.find?_cons, List.find?_cons]
    cases hd : decide (key a = id) with
    | true => rfl
    | false => exact ih

theorem findBy_replaceBy_self {db : List α} {id : String} {r x : α}
    (h : findBy key db id = some r) (hx : key x = id) :
    findBy key (replaceBy key db id x) id = some x := by
  induction db with
  | nil => exact absurd h (by simp [findBy])
  | cons a l ih =>
    by_cases ha : key a = id
    · show List.find? _ ((if key a = id then x else a) :: _) = some x
      rw [if_pos ha, List.find?_cons, decide_eq_true hx]
    · have h' : findBy key l id = some r := by
        unfold findBy at h
        rw [List.find?_cons, decide_eq_false ha] at h
        exact h
      show List.find? _ ((if key a = id then x else a) :: _) = some x
      rw [if_neg ha, List.find?_cons, decide_eq_false ha]
      exact ih h'

theorem findBy_replaceBy_other {db : List α} {id j : String} {x : α}
    (hj : j ≠ id) (hx : key x = id) :
    findBy key (replaceBy key db id x) j = findBy key db j := by
  induction db with
  | nil => rfl
  | cons a l ih =>
    by_cases ha : key a = id
    · have hxj : ¬ (key x = j) := by
        rw [hx]; exact fun hh => hj hh.symm
      have haj : ¬ (key a = j) := by
        rw [ha]; exact fun hh => hj hh.symm
      show List.find? _ ((if key a = id then x else a) :: _) = _
      rw [if_pos ha]
      unfold findBy
      rw [List.find?_cons, List.find?_cons, decide_eq_false hxj, decide_eq_false haj]
      exact ih
    · show List.find? _ ((if key a = id then x else a) :: _) = _
      rw [if_neg ha]
      unfold findBy
      rw [List.find?_cons, List.find?_cons]
      cases hd : decide (key a = j) with
      | true => rfl
      | false => exact ih

end Lemmas

/-- A stored analysis row owned (via its `user_id` column) by user `u1`. -/
def ownedRowC1 : AnalysisDbRow :=
  { id := "a1"
    user_id := some "u1"
    url := "https://example.com"
    page_title := none
    analysis := "report text"
    pdf_path := none
    metadata := { wordCount := 0, analysisTokens := 0, pageSize := 0
                  loadTime := none, screenshotPath := none }
    status := Status.completed
    error_message := none
    created_at := "2024-01-01T00:00:00.000Z"
    updated_at := "2024-01-01T00:00:00.000Z" }

/-- The authenticated owner of `ownedRowC1` making the request. -/
def ownerPayloadC1 : JWTPayload :=
  { userId := "u1", email := "u1@example.com", role := "user", iat := 0, exp := 1 }

/-- C1: the owning user is rejected with 403 on their own analysis.
`mapRowToRecord` never copies `user_id` into the returned record, so the
handler compares `undefined` against the requester's id and denies access
to everyone — including the owner, contradicting the claim (and the
route's own comment "user can only access their own analyses"). -/
theorem claim1_owner_gets_403 :
    CroRoute.getAnalysisById [ownedRowC1] (some ownerPayloadC1) "a1"
      = GetAnalysisReply.accessDenied := by
  decide

/-- C9 counterexample: when the engine reports an error while closing, the
sqlite branch of `close` propagates that rejection to the caller instead of
returning normally. -/
theorem claim9_counterexample :
    DatabaseService.close DbType.sqlite (Except.error "SQLITE_BUSY: database is locked")
      ≠ Except.ok () := by
  decide

/-- C9 amended: `close` succeeds only when the engine close succeeds; an
engine-reported error is propagated to the caller on both engines (the
sqlite branch returns the un-awaited rejected promise past the catch, the
pg branch logs and rethrows). -/
theorem claim9_amended : ∀ (t : DbType) (e : String),
    DatabaseService.close t (Except.error e) = Except.error e ∧
    DatabaseService.close t (Except.ok ()) = Except.ok () := by
  intro t e
  cases t <;> exact ⟨rfl, rfl⟩

/-- C10: whatever the request carries — in particular any requested
`status` — the created record has status `'pending'`, empty analysis text,
NULL pdf path and error message, and metadata equal to the zero defaults
overlaid with the supplied partial metadata. -/
theorem claim10_create_ignores_status :
    ∀ (db : List AnalysisDbRow) (data : CreateAnalysisRequest) (newId now : String),
    (∀ r ∈ db, r.id ≠ newId) →
    ∃ db' rec, AnalysisRepository.create db data newId now = Except.ok (db', rec) ∧
      rec.status = Status.pending ∧
      rec.analysis = "" ∧
      rec.pdfPath = none ∧
      rec.errorMessage = none ∧
      rec.metadata = mergeMetadata
        { wordCount := 0, analysisTokens := 0, pageSize := 0
          loadTime := none, screenshotPath := none }
        (data.metadata.getD {}) := by
  intro db data newId now h
  have hany : (db.any fun r => r.id = newId) = false := by
    rw [List.any_eq_false]
    intro x hx
    simpa using h x hx
  have hfind : findBy (fun r => r.id) (db ++ [AnalysisRepository.createRow data newId now]) newId
      = some (AnalysisRepository.createRow data newId now) :=
    findBy_append_fresh rfl h
  refine ⟨db ++ [AnalysisRepository.createRow data newId now],
    AnalysisRepository.mapRowToRecord (AnalysisRepository.createRow data newId now), ?_,
    rfl, rfl, rfl, rfl, rfl⟩
  simp only [AnalysisRepository.create, hany, Bool.false_eq_true, if_false,
    AnalysisRepository.findById, hfind, Option.map_some']

/-- C10 witness: a concrete request asking for status `'completed'` still
yields a `'pending'` record with default-overlaid metadata. -/
theorem claim10_witness :
    (∀ r ∈ ([] : List AnalysisDbRow), r.id ≠ "a1") ∧
    (∃ db' rec,
      AnalysisRepository.create []
        { url := "https://example.com", status := some Status.completed
          metadata := some { wordCount := some 5 } } "a1" "t0" = Except.ok (db', rec) ∧
      rec.status = Status.pending ∧
      rec.analysis = "" ∧
      rec.pdfPath = none ∧
      rec.errorMessage = none ∧
      rec.metadata = mergeMetadata
        { wordCount := 0, analysisTokens := 0, pageSize := 0
          loadTime := none, screenshotPath := none }
        ((some { wordCount := some 5 } : Option MetadataPatch).getD {})) :=
  ⟨by simp, claim10_create_ignores_status []
    { url := "https://example.com", status := some Status.completed
      metadata := some { wordCount := some 5 } } "a1" "t0" (by simp)⟩


/-- C7: with a successfully decoded (valid-signature, unexpired) token,
`verifyToken` rejects whenever the referenced user is missing or inactive;
in particular, after an `update` with `isActive: false` on the token's
user, the next verification of any of that user's tokens fails. -/
theorem claim7_deactivation_invalidates :
    (∀ (db : List UserRow) (p : JWTPayload),
      (UserRepository.findById db p.userId = none ∨
        ∃ u, UserRepository.findById db p.userId = some u ∧ u.is_active = false) →
      AuthServiceImpl.verifyToken (JwtVerifyOutcome.ok p) db
        = Except.error "User not found or inactive")
    ∧ (∀ (db : List UserRow) (p : JWTPayload) (u : UserRow) (now : String),
      UserRepository.findById db p.userId = some u →
      AuthServiceImpl.verifyToken (JwtVerifyOutcome.ok p)
        ((UserRepository.update db p.userId { isActive := some false } now).2)
        = Except.error "User not found or inactive") := by
  constructor
  · intro db p h
    rcases h with h | ⟨u, hu, hact⟩
    · simp only [AuthServiceImpl.verifyToken, h]
    · simp only [AuthServiceImpl.verifyToken, hu, hact, Bool.false_eq_true, if_false]
  · intro db p u now hu
    have hu' : findBy (fun v : UserRow => v.id) db p.userId = some u := hu
    have hkey : u.id = p.userId := (findBy_mem hu').2
    have hdb' : (UserRepository.update db p.userId { isActive := some false } now).2
        = replaceBy (fun v : UserRow => v.id) db p.userId
            (UserRepository.updateFields u { isActive := some false } now) := by
      simp only [UserRepository.update, hu]
    have hfind : UserRepository.findById
        (replaceBy (fun v : UserRow => v.id) db p.userId
          (UserRepository.updateFields u { isActive := some false } now)) p.userId
        = some (UserRepository.updateFields u { isActive := some false } now) :=
      findBy_replaceBy_self hu' hkey
    rw [hdb']
    simp only [AuthServiceImpl.verifyToken, hfind]
    rfl

/-- C7 witness: a concrete single-user database; after deactivation the
user's still-unexpired token is rejected. -/
theorem claim7_witness :
    UserRepository.findById [UserRepository.createRow
        { email := "A@ex.com", password := "pw", firstName := "A", lastName := "B" }
        "u1" "t0" "hash"] "u1"
      = some (UserRepository.createRow
        { email := "A@ex.com", password := "pw", firstName := "A", lastName := "B" }
        "u1" "t0" "hash") ∧
    AuthServiceImpl.verifyToken
      (JwtVerifyOutcome.ok { userId := "u1", email := "a@ex.com", role := "user", iat := 0, exp := 1 })
      ((UserRepository.update [UserRepository.createRow
          { email := "A@ex.com", password := "pw", firstName := "A", lastName := "B" }
          "u1" "t0" "hash"] "u1" { isActive := some false } "t1").2)
      = Except.error "User not found or inactive" :=
  ⟨by decide, claim7_deactivation_invalidates.2
    [UserRepository.createRow
      { email := "A@ex.com", password := "pw", firstName := "A", lastName := "B" }
      "u1" "t0" "hash"]
    { userId := "u1", email := "a@ex.com", role := "user", iat := 0, exp := 1 }
    (UserRepository.createRow
      { email := "A@ex.com", password := "pw", firstName := "A", lastName := "B" }
      "u1" "t0" "hash")
    "t1" (by decide)⟩

/-- C8: when exactly one stored user carries the (lowercased) requested
email, `register` fails with the duplicate-email error, the route maps it
to HTTP 409, and the users table is unchanged — afterwards still exactly
one row with that email. -/
theorem claim8_duplicate_email_conflict :
    ∀ (db : List UserRow) (data : CreateUserRequest) (newId now hash : String),
    (db.filter (fun u => u.email = jsToLower data.email)).length = 1 →
    AuthServiceImpl.register db data newId now hash
      = (Except.error "User with this email already exists", db) ∧
    registerRouteStatus (AuthServiceImpl.register db data newId now hash).1 = 409 ∧
    (((AuthServiceImpl.register db data newId now hash).2).filter
      (fun u => u.email = jsToLower data.email)).length = 1 := by
  intro db data newId now hash h
  have hsome : ∃ u, UserRepository.findByEmail db data.email = some u := by
    unfold UserRepository.findByEmail
    cases hfind : db.find? (fun u => u.email = jsToLower data.email) with
    | some u => exact ⟨u, rfl⟩
    | none =>
      rw [List.find?_eq_none] at hfind
      have hnil : db.filter (fun u => u.email = jsToLower data.email) = [] := by
        rw [List.filter_eq_nil_iff]
        intro a ha
        exact hfind a ha
      rw [hnil] at h
      simp at h
  obtain ⟨u, hu⟩ := hsome
  have hreg : AuthServiceImpl.register db data newId now hash
      = (Except.error "User with this email already exists", db) := by
    simp only [AuthServiceImpl.register, hu]
  refine ⟨hreg, ?_, ?_⟩
  · rw [hreg]
    show registerRouteStatus (Except.error "User with this email already exists") = 409
    decide
  · rw [hreg]
    exact h

/-- C8 witness: a one-user table and a re-registration of the same email
in different case. -/
theorem claim8_witness :
    (([UserRepository.createRow
        { email := "Bob@Example.com", password := "pw", firstName := "Bob", lastName := "B" }
        "u1" "t0" "hash"].filter
      (fun u => u.email = jsToLower "BOB@example.COM")).length = 1) ∧
    (AuthServiceImpl.register
      [UserRepository.createRow
        { email := "Bob@Example.com", password := "pw", firstName := "Bob", lastName := "B" }
        "u1" "t0" "hash"]
      { email := "BOB@example.COM", password := "pw2", firstName := "Bob", lastName := "B" }
      "u2" "t1" "hash2"
      = (Except.error "User with this email already exists",
        [UserRepository.createRow
          { email := "Bob@Example.com", password := "pw", firstName := "Bob", lastName := "B" }
          "u1" "t0" "hash"]) ∧
    registerRouteStatus (AuthServiceImpl.register
      [UserRepository.createRow
        { email := "Bob@Example.com", password := "pw", firstName := "Bob", lastName := "B" }
        "u1" "t0" "hash"]
      { email := "BOB@example.COM", password := "pw2", firstName := "Bob", lastName := "B" }
      "u2" "t1" "hash2").1 = 409 ∧
    (((AuthServiceImpl.register
      [UserRepository.createRow
        { email := "Bob@Example.com", password := "pw", firstName := "Bob", lastName := "B" }
        "u1" "t0" "hash"]
      { email := "BOB@example.COM", password := "pw2", firstName := "Bob", lastName := "B" }
      "u2" "t1" "hash2").2).filter
        (fun u => u.email = jsToLower "BOB@example.COM")).length = 1) :=
  ⟨by decide, claim8_duplicate_email_conflict
    [UserRepository.createRow
      { email := "Bob@Example.com", password := "pw", firstName := "Bob", lastName := "B" }
      "u1" "t0" "hash"]
    { email := "BOB@example.COM", password := "pw2", firstName := "Bob", lastName := "B" }
    "u2" "t1" "hash2" (by decide)⟩

/-- C6: `update` rewrites exactly the supplied fields (metadata by merge)
plus the `updated_at` stamp; every column not named in the patch keeps its
prior value, and every other row is untouched — for the analysis
repository and the user repository alike. -/
theorem claim6_update_frame :
    (∀ (db : List AnalysisDbRow) (id : String) (p : UpdateAnalysisRequest)
      (now : String) (row : AnalysisDbRow),
      findBy (fun r : AnalysisDbRow => r.id) db id = some row →
      (AnalysisRepository.update db id p now).2
        = replaceBy (fun r : AnalysisDbRow => r.id) db id
            (AnalysisRepository.updateFields row p now) ∧
      findBy (fun r : AnalysisDbRow => r.id)
        ((AnalysisRepository.update db id p now).2) id
        = some (AnalysisRepository.updateFields row p now) ∧
      (∀ j, j ≠ id →
        findBy (fun r : AnalysisDbRow => r.id)
          ((AnalysisRepository.update db id p now).2) j
          = findBy (fun r : AnalysisDbRow => r.id) db j) ∧
      (p.analysis = none →
        (AnalysisRepository.updateFields row p now).analysis = row.analysis) ∧
      (p.pdfPath = none →
        (AnalysisRepository.updateFields row p now).pdf_path = row.pdf_path) ∧
      (p.metadata = none →
        (AnalysisRepository.updateFields row p now).metadata = row.metadata) ∧
      (p.status = none →
        (AnalysisRepository.updateFields row p now).status = row.status) ∧
      (p.errorMessage = none →
        (AnalysisRepository.updateFields row p now).error_message = row.error_message) ∧
      (AnalysisRepository.updateFields row p now).id = row.id ∧
      (AnalysisRepository.updateFields row p now).user_id = row.user_id ∧
      (AnalysisRepository.updateFields row p now).url = row.url ∧
      (AnalysisRepository.updateFields row p now).page_title = row.page_title ∧
      (AnalysisRepository.updateFields row p now).created_at = row.created_at ∧
      (AnalysisRepository.updateFields row p now).updated_at = now ∧
      (∀ v, p.analysis = some v →
        (AnalysisRepository.updateFields row p now).analysis = v) ∧
      (∀ v, p.pdfPath = some v →
        (AnalysisRepository.updateFields row p now).pdf_path = some v) ∧
      (∀ m, p.metadata = some m →
        (AnalysisRepository.updateFields row p now).metadata
          = mergeMetadata row.metadata m) ∧
      (∀ s, p.status = some s →
        (AnalysisRepository.updateFields row p now).status = s) ∧
      (∀ v, p.errorMessage = some v →
        (AnalysisRepository.updateFields row p now).error_message = some v))
    ∧ (∀ (db : List UserRow) (id : String) (p : UpdateUserRequest)
      (now : String) (row : UserRow),
      findBy (fun u : UserRow => u.id) db id = some row →
      (UserRepository.update db id p now).2
        = replaceBy (fun u : UserRow => u.id) db id
            (UserRepository.updateFields row p now) ∧
      findBy (fun u : UserRow => u.id)
        ((UserRepository.update db id p now).2) id
        = some (UserRepository.updateFields row p now) ∧
      (∀ j, j ≠ id →
        findBy (fun u : UserRow => u.id)
          ((UserRepository.update db id p now).2) j
          = findBy (fun u : UserRow => u.id) db j) ∧
      (p.firstName = none →
        (UserRepository.updateFields row p now).first_name = row.first_name) ∧
      (p.lastName = none →
        (UserRepository.updateFields row p now).last_name = row.last_name) ∧
      (p.role = none →
        (UserRepository.updateFields row p now).role = row.role) ∧
      (p.isActive = none →
        (UserRepository.updateFields row p now).is_active = row.is_active) ∧
      (UserRepository.updateFields row p now).id = row.id ∧
      (UserRepository.updateFields row p now).email = row.email ∧
      (UserRepository.updateFields row p now).password = row.password ∧
      (UserRepository.updateFields row p now).last_login_at = row.last_login_at ∧
      (UserRepository.updateFields row p now).created_at = row.created_at ∧
      (UserRepository.updateFields row p now).updated_at = now ∧
      (∀ v, p.firstName = some v →
        (UserRepository.updateFields row p now).first_name = v) ∧
      (∀ v, p.lastName = some v →
        (UserRepository.updateFields row p now).last_name = v) ∧
      (∀ v, p.role = some v →
        (UserRepository.updateFields row p now).role = v) ∧
      (∀ v, p.isActive = some v →
        (UserRepository.updateFields row p now).is_active = v)) := by
  constructor
  · intro db id p now row hrow
    have hid : (AnalysisRepository.updateFields row p now).id = id :=
      (findBy_mem hrow).2
    have hdb : (AnalysisRepository.update db id p now).2
        = replaceBy (fun r : AnalysisDbRow => r.id) db id
            (AnalysisRepository.updateFields row p now) := by
      simp only [AnalysisRepository.update, hrow]
    refine ⟨hdb, ?_, ?_, ?_, ?_, ?_, ?_, ?_, rfl, rfl, rfl, rfl, rfl, rfl,
      ?_, ?_, ?_, ?_, ?_⟩
    · rw [hdb]; exact findBy_replaceBy_self hrow hid
    · intro j hj; rw [hdb]; exact findBy_replaceBy_other hj hid
    · intro h; simp [AnalysisRepository.updateFields, h]
    · intro h; simp [AnalysisRepository.updateFields, h]
    · intro h; simp [AnalysisRepository.updateFields, h]
    · intro h; simp [AnalysisRepository.updateFields, h]
    · intro h; simp [AnalysisRepository.updateFields, h]
    · intro v h; simp [AnalysisRepository.updateFields, h]
    · intro v h; simp [AnalysisRepository.updateFields, h]
    · intro m h; simp [AnalysisRepository.updateFields, h]
    · intro s h; simp [AnalysisRepository.updateFields, h]
    · intro v h; simp [AnalysisRepository.updateFields, h]
  · intro db id p now row hrow
    have hid : (UserRepository.updateFields row p now).id = id :=
      (findBy_mem hrow).2
    have hrow' : UserRepository.findById db id = some row := hrow
    have hdb : (UserRepository.update db id p now).2
        = replaceBy (fun u : UserRow => u.id) db id
            (UserRepository.updateFields row p now) := by
      simp only [UserRepository.update, hrow']
    refine ⟨hdb, ?_, ?_, ?_, ?_, ?_, ?_, rfl, rfl, rfl, rfl, rfl, rfl,
      ?_, ?_, ?_, ?_⟩
    · rw [hdb]; exact findBy_replaceBy_self hrow hid
    · intro j hj; rw [hdb]; exact findBy_replaceBy_other hj hid
    · intro h; simp [UserRepository.updateFields, h]
    · intro h; simp [UserRepository.updateFields, h]
    · intro h; simp [UserRepository.updateFields, h]
    · intro h; simp [UserRepository.updateFields, h]
    · intro v h; simp [UserRepository.updateFields, h]
    · intro v h; simp [UserRepository.updateFields, h]
    · intro v h; simp [UserRepository.updateFields, h]
    · intro v h; simp [UserRepository.updateFields, h]

/-- Concrete analysis row for the C6 witness. -/
def rowC6 : AnalysisDbRow :=
  { id := "a6"
    user_id := none
    url := "https://example.org"
    page_title := some "Landing"
    analysis := "old text"
    pdf_path := some "reports/old.pdf"
    metadata := { wordCount := 7, analysisTokens := 3, pageSize := 9
                  loadTime := none, screenshotPath := none }
    status := Status.processing
    error_message := none
    created_at := "t0"
    updated_at := "t1" }

/-- Concrete user row for the C6 witness. -/
def userC6 : UserRow :=
  { id := "u6"
    email := "c6@example.org"
    password := "hash6"
    first_name := "Carol"
    last_name := "Six"
    role := "user"
    is_active := true
    last_login_at := none
    created_at := "t0"
    updated_at := "t1" }

/-- C6 witness: a partial patch (`status` only / `lastName` only) leaves
the unsupplied fields untouched and stamps `updated_at`. -/
theorem claim6_witness :
    findBy (fun r : AnalysisDbRow => r.id) [rowC6] "a6" = some rowC6 ∧
    (AnalysisRepository.updateFields rowC6 { status := some Status.failed } "t9").analysis
      = rowC6.analysis ∧
    (AnalysisRepository.updateFields rowC6 { status := some Status.failed } "t9").updated_at
      = "t9" ∧
    (AnalysisRepository.updateFields rowC6 { status := some Status.failed } "t9").status
      = Status.failed ∧
    findBy (fun u : UserRow => u.id) [userC6] "u6" = some userC6 ∧
    (UserRepository.updateFields userC6 { lastName := some "Seven" } "t9").email
      = userC6.email ∧
    (UserRepository.updateFields userC6 { lastName := some "Seven" } "t9").last_name
      = "Seven" := by
  have ha := claim6_update_frame.1 [rowC6] "a6"
    { status := some Status.failed } "t9" rowC6 (by decide)
  have hu := claim6_update_frame.2 [userC6] "u6"
    { lastName := some "Seven" } "t9" userC6 (by decide)
  refine ⟨by decide, ha.2.2.2.1 rfl, ?_, ?_, by decide, ?_, ?_⟩
  · exact ha.2.2.2.2.2.2.2.2.2.2.2.2.2.1
  · exact ha.2.2.2.2.2.2.2.2.2.2.2.2.2.2.2.2.2.1 Status.failed rfl
  · exact hu.2.2.2.2.2.2.2.2.1
  · exact hu.2.2.2.2.2.2.2.2.2.2.2.2.2.2.1 "Seven" rfl

namespace CroRoute

/-- The record row freshly inserted by the analyze flow. -/
def flowRow1 (url newId now : String) : AnalysisDbRow :=
  AnalysisRepository.createRow { url := url, status := some Status.pending } newId now

/-- Database after the flow's `create` (status `'pending'`). -/
def flowDb1 (db : List AnalysisDbRow) (url newId now : String) : List AnalysisDbRow :=
  db ++ [flowRow1 url newId now]

/-- The record row after the flow's bump to `'processing'`. -/
def flowRow2 (url newId now : String) : AnalysisDbRow :=
  AnalysisRepository.updateFields (flowRow1 url newId now)
    { status := some Status.processing } now

/-- Database after the bump to `'processing'`. -/
def flowDb2 (db : List AnalysisDbRow) (url newId now : String) : List AnalysisDbRow :=
  replaceBy (fun r => r.id) (flowDb1 db url newId now) newId (flowRow2 url newId now)

/-- The record row after the unavailable-service failure update. -/
def flowRowFail (url newId now : String) : AnalysisDbRow :=
  AnalysisRepository.updateFields (flowRow2 url newId now)
    { status := some Status.failed, errorMessage := some "CRO Service not available" } now

/-- Database after the unavailable-service failure update. -/
def flowDbFail (db : List AnalysisDbRow) (url newId now : String) : List AnalysisDbRow :=
  replaceBy (fun r => r.id) (flowDb2 db url newId now) newId (flowRowFail url newId now)

/-- The record row after the page-metadata update. -/
def flowRow3 (url newId now : String) (pd : PageData) : AnalysisDbRow :=
  AnalysisRepository.updateFields (flowRow2 url newId now)
    { metadata := some
        { wordCount := some (pd.text.splitOn " ").length
          pageSize := some pd.html.length
          screenshotPath := some "landing-page-snapshot.png" } } now

/-- Database after the page-metadata update. -/
def flowDb3 (db : List AnalysisDbRow) (url newId now : String) (pd : PageData) :
    List AnalysisDbRow :=
  replaceBy (fun r => r.id) (flowDb2 db url newId now) newId (flowRow3 url newId now pd)

/-- The record row after the completion update. -/
def flowRow4 (url newId now : String) (pd : PageData) (analysisText : String) :
    AnalysisDbRow :=
  AnalysisRepository.updateFields (flowRow3 url newId now pd)
    { analysis := some analysisText
      pdfPath := some ("reports/CRO_Report_" ++ newId ++ ".pdf")
      status := some Status.completed
      metadata := some { analysisTokens := some analysisText.length } } now

/-- Database after the completion update. -/
def flowDb4 (db : List AnalysisDbRow) (url newId now : String) (pd : PageData)
    (analysisText : String) : List AnalysisDbRow :=
  replaceBy (fun r => r.id) (flowDb3 db url newId now pd) newId
    (flowRow4 url newId now pd analysisText)

theorem findBy_flowDb1 (db : List AnalysisDbRow) (url newId now : String)
    (hfresh : ∀ r ∈ db, r.id ≠ newId) :
    findBy (fun r : AnalysisDbRow => r.id) (flowDb1 db url newId now) newId
      = some (flowRow1 url newId now) :=
  findBy_append_fresh rfl hfresh

theorem findBy_flowDb2 (db : List AnalysisDbRow) (url newId now : String)
    (hfresh : ∀ r ∈ db, r.id ≠ newId) :
    findBy (fun r : AnalysisDbRow => r.id) (flowDb2 db url newId now) newId
      = some (flowRow2 url newId now) :=
  findBy_replaceBy_self (findBy_flowDb1 db url newId now hfresh) rfl

theorem findBy_flowDb3 (db : List AnalysisDbRow) (url newId now : String) (pd : PageData)
    (hfresh : ∀ r ∈ db, r.id ≠ newId) :
    findBy (fun r : AnalysisDbRow => r.id) (flowDb3 db url newId now pd) newId
      = some (flowRow3 url newId now pd) :=
  findBy_replaceBy_self (findBy_flowDb2 db url newId now hfresh) rfl

theorem findBy_flowDbFail (db : List AnalysisDbRow) (url newId now : String)
    (hfresh : ∀ r ∈ db, r.id ≠ newId) :
    findBy (fun r : AnalysisDbRow => r.id) (flowDbFail db url newId now) newId
      = some (flowRowFail url newId now) :=
  findBy_replaceBy_self (findBy_flowDb2 db url newId now hfresh) rfl

theorem findBy_flowDb4 (db : List AnalysisDbRow) (url newId now : String) (pd : PageData)
    (analysisText : String) (hfresh : ∀ r ∈ db, r.id ≠ newId) :
    findBy (fun r : AnalysisDbRow => r.id) (flowDb4 db url newId now pd analysisText) newId
      = some (flowRow4 url newId now pd analysisText) :=
  findBy_replaceBy_self (findBy_flowDb3 db url newId now pd hfresh) rfl

/-- Characterization of the analyze handler run on a fresh id: the exact
state trace for each collaborator-outcome shape. -/
theorem analyzeRun_eq (db : List AnalysisDbRow) (url : String) (sc : Scenario)
    (newId now : String) (hfresh : ∀ r ∈ db, r.id ≠ newId) :
    analyzeRun db url sc newId now =
      if sc.croAvailable then
        match sc.scrape with
        | Except.error _ => (500, [db, flowDb1 db url newId now, flowDb2 db url newId now])
        | Except.ok pd =>
          match sc.llm with
          | Except.error _ =>
            (500, [db, flowDb1 db url newId now, flowDb2 db url newId now,
              flowDb3 db url newId now pd])
          | Except.ok analysisText =>
            match sc.pdf with
            | Except.error _ =>
              (500, [db, flowDb1 db url newId now, flowDb2 db url newId now,
                flowDb3 db url newId now pd])
            | Except.ok _ =>
              (200, [db, flowDb1 db url newId now, flowDb2 db url newId now,
                flowDb3 db url newId now pd, flowDb4 db url newId now pd analysisText])
      else
        (500, [db, flowDb1 db url newId now, flowDb2 db url newId now,
          flowDbFail db url newId now]) := by
  have hany : (db.any fun r => r.id = newId) = false := by
    rw [List.any_eq_false]
    intro x hx
    simpa using hfresh x hx
  have hf1 : findBy (fun r : AnalysisDbRow => r.id)
      (db ++ [AnalysisRepository.createRow
        { url := url, status := some Status.pending } newId now]) newId
      = some (AnalysisRepository.createRow
        { url := url, status := some Status.pending } newId now) :=
    findBy_append_fresh rfl hfresh
  have hcreate : AnalysisRepository.create db { url := url, status := some Status.pending }
      newId now
      = Except.ok (flowDb1 db url newId now,
          AnalysisRepository.mapRowToRecord (flowRow1 url newId now)) := by
    simp only [AnalysisRepository.create, hany, Bool.false_eq_true, if_false,
      AnalysisRepository.findById, hf1, Option.map_some']
    rfl
  have hrecid : (AnalysisRepository.mapRowToRecord (flowRow1 url newId now)).id = newId := rfl
  have hupd1 : AnalysisRepository.update (flowDb1 db url newId now) newId
      { status := some Status.processing } now
      = (AnalysisRepository.findById (flowDb2 db url newId now) newId,
          flowDb2 db url newId now) := by
    simp only [AnalysisRepository.update, findBy_flowDb1 db url newId now hfresh]
    rfl
  have hupdFail : AnalysisRepository.update (flowDb2 db url newId now) newId
      { status := some Status.failed, errorMessage := some "CRO Service not available" } now
      = (AnalysisRepository.findById (flowDbFail db url newId now) newId,
          flowDbFail db url newId now) := by
    simp only [AnalysisRepository.update, findBy_flowDb2 db url newId now hfresh]
    rfl
  have hupd3 : ∀ pd : PageData, AnalysisRepository.update (flowDb2 db url newId now) newId
      { metadata := some
          { wordCount := some (pd.text.splitOn " ").length
            pageSize := some pd.html.length
            screenshotPath := some "landing-page-snapshot.png" } } now
      = (AnalysisRepository.findById (flowDb3 db url newId now pd) newId,
          flowDb3 db url newId now pd) := by
    intro pd
    simp only [AnalysisRepository.update, findBy_flowDb2 db url newId now hfresh]
    rfl
  have hupd4 : ∀ (pd : PageData) (analysisText : String),
      AnalysisRepository.update (flowDb3 db url newId now pd) newId
        { analysis := some analysisText
          pdfPath := some ("reports/CRO_Report_" ++ newId ++ ".pdf")
          status := some Status.completed
          metadata := some { analysisTokens := some analysisText.length } } now
      = (AnalysisRepository.findById (flowDb4 db url newId now pd analysisText) newId,
          flowDb4 db url newId now pd analysisText) := by
    intro pd analysisText
    simp only [AnalysisRepository.update, findBy_flowDb3 db url newId now pd hfresh]
    rfl
  cases hcro : sc.croAvailable with
  | false =>
    simp only [analyzeRun, hcreate, hrecid, hcro, Bool.false_eq_true, if_false,
      hupd1, hupdFail]
  | true =>
    cases hscr : sc.scrape with
    | error e =>
      simp only [analyzeRun, hcreate, hrecid, hcro, if_true, hscr, hupd1]
    | ok pd =>
      cases hllm : sc.llm with
      | error e =>
        simp only [analyzeRun, hcreate, hrecid, hcro, if_true, hscr, hupd1, hupd3, hllm]
      | ok analysisText =>
        cases hpdf : sc.pdf with
        | error e =>
          simp only [analyzeRun, hcreate, hrecid, hcro, if_true, hscr, hupd1, hupd3,
            hllm, hpdf]
        | ok u =>
          simp only [analyzeRun, hcreate, hrecid, hcro, if_true, hscr, hupd1, hupd3,
            hllm, hpdf, hupd4]

end CroRoute

/-- A pipeline run in which the CRO service is registered but the scrape
stage rejects. -/
def scrapeFailScenario : CroRoute.Scenario :=
  { croAvailable := true
    scrape := Except.error "net::ERR_NAME_NOT_RESOLVED"
    llm := Except.ok ""
    pdf := Except.ok () }

/-- C4 counterexample: the analysis record was created (and bumped to
`'processing'`), then the scrape stage failed — yet the persisted record is
NOT `'failed'` and carries no error message: the route's catch block only
logs. This refutes the claim that any post-creation stage failure updates
the record to `'failed'` with an error message. -/
theorem claim4_counterexample :
    statusOf (CroRoute.analyzeFinal [] "https://example.com" scrapeFailScenario "a1" "t0")
      "a1" ≠ some Status.failed ∧
    errorOf (CroRoute.analyzeFinal [] "https://example.com" scrapeFailScenario "a1" "t0")
      "a1" = some none := by
  constructor
  · decide
  · decide

/-- C4 amended: after the record is created, only the CRO-service
unavailability check marks it `'failed'` (with an error message); a
rejection of the scrape, LLM, or PDF stage is caught by a handler that only
logs, leaving the record at its last persisted status `'processing'` with a
NULL error message (success ends at `'completed'`); and when record
creation itself fails, nothing at all is persisted (500, state unchanged). -/
theorem claim4_amended :
    (∀ (db : List AnalysisDbRow) (url : String) (sc : CroRoute.Scenario) (newId now : String),
      (∀ r ∈ db, r.id ≠ newId) →
      statusOf (CroRoute.analyzeFinal db url sc newId now) newId
        = some (expectedFinalStatus sc) ∧
      errorOf (CroRoute.analyzeFinal db url sc newId now) newId
        = some (if sc.croAvailable then none else some "CRO Service not available"))
    ∧ (∀ (db : List AnalysisDbRow) (url : String) (sc : CroRoute.Scenario) (newId now : String),
      (db.any fun r => r.id = newId) = true →
      CroRoute.analyzeRun db url sc newId now = (500, [db])) := by
  constructor
  · intro db url sc newId now hfresh
    unfold CroRoute.analyzeFinal
    rw [CroRoute.analyzeRun_eq db url sc newId now hfresh]
    cases hcro : sc.croAvailable with
    | false =>
      simp only [Bool.false_eq_true, if_false, List.getLast?, Option.getD]
      constructor
      · show statusOf (CroRoute.flowDbFail db url newId now) newId = _
        unfold statusOf
        rw [CroRoute.findBy_flowDbFail db url newId now hfresh]
        simp [expectedFinalStatus, hcro]
        rfl
      · show errorOf (CroRoute.flowDbFail db url newId now) newId = _
        unfold errorOf
        rw [CroRoute.findBy_flowDbFail db url newId now hfresh]
        simp [hcro]
        rfl
    | true =>
      cases hscr : sc.scrape with
      | error e =>
        simp only [if_true, List.getLast?, Option.getD]
        constructor
        · show statusOf (CroRoute.flowDb2 db url newId now) newId = _
          unfold statusOf
          rw [CroRoute.findBy_flowDb2 db url newId now hfresh]
          simp [expectedFinalStatus, hcro, hscr]
          rfl
        · show errorOf (CroRoute.flowDb2 db url newId now) newId = _
          unfold errorOf
          rw [CroRoute.findBy_flowDb2 db url newId now hfresh]
          simp [hcro]
          rfl
      | ok pd =>
        cases hllm : sc.llm with
        | error e =>
          simp only [if_true, List.getLast?, Option.getD]
          constructor
          · show statusOf (CroRoute.flowDb3 db url newId now pd) newId = _
            unfold statusOf
            rw [CroRoute.findBy_flowDb3 db url newId now pd hfresh]
            simp [expectedFinalStatus, hcro, hscr, hllm]
            rfl
          · show errorOf (CroRoute.flowDb3 db url newId now pd) newId = _
            unfold errorOf
            rw [CroRoute.findBy_flowDb3 db url newId now pd hfresh]
            simp [hcro]
            rfl
        | ok analysisText =>
          cases hpdf : sc.pdf with
          | error e =>
            simp only [if_true, List.getLast?, Option.getD]
            constructor
            · show statusOf (CroRoute.flowDb3 db url newId now pd) newId = _
              unfold statusOf
              rw [CroRoute.findBy_flowDb3 db url newId now pd hfresh]
              simp [expectedFinalStatus, hcro, hscr, hllm, hpdf]
              rfl
            · show errorOf (CroRoute.flowDb3 db url newId now pd) newId = _
              unfold errorOf
              rw [CroRoute.findBy_flowDb3 db url newId now pd hfresh]
              simp [hcro]
              rfl
          | ok u =>
            simp only [if_true, List.getLast?, Option.getD]
            constructor
            · show statusOf (CroRoute.flowDb4 db url newId now pd analysisText) newId = _
              unfold statusOf
              rw [CroRoute.findBy_flowDb4 db url newId now pd analysisText hfresh]
              simp [expectedFinalStatus, hcro, hscr, hllm, hpdf]
              rfl
            · show errorOf (CroRoute.flowDb4 db url newId now pd analysisText) newId = _
              unfold errorOf
              rw [CroRoute.findBy_flowDb4 db url newId now pd analysisText hfresh]
              simp [hcro]
              rfl
  · intro db url sc newId now hdup
    simp only [CroRoute.analyzeRun, AnalysisRepository.create, hdup, if_true]

/-- C4 witness: the amended characterization applied to both a fresh-id
scrape-failure run (final status `'processing'`, no error message) and a
duplicate-id run (nothing persisted). -/
theorem claim4_witness :
    (∀ r ∈ ([] : List AnalysisDbRow), r.id ≠ "a1") ∧
    (statusOf (CroRoute.analyzeFinal [] "https://example.com" scrapeFailScenario "a1" "t0")
        "a1" = some (expectedFinalStatus scrapeFailScenario) ∧
      errorOf (CroRoute.analyzeFinal [] "https://example.com" scrapeFailScenario "a1" "t0")
        "a1" = some (if scrapeFailScenario.croAvailable then none
          else some "CRO Service not available")) ∧
    (([ownedRowC1].any fun r => r.id = "a1") = true ∧
      CroRoute.analyzeRun [ownedRowC1] "https://example.com" scrapeFailScenario "a1" "t0"
        = (500, [[ownedRowC1]])) :=
  ⟨by simp,
    claim4_amended.1 [] "https://example.com" scrapeFailScenario "a1" "t0" (by simp),
    by decide,
    claim4_amended.2 [ownedRowC1] "https://example.com" scrapeFailScenario "a1" "t0"
      (by decide)⟩

namespace CroRoute

theorem findBy_flowDb1_other (db : List AnalysisDbRow) (url newId now j : String)
    (hj : j ≠ newId) :
    findBy (fun x : AnalysisDbRow => x.id) (flowDb1 db url newId now) j
      = findBy (fun x : AnalysisDbRow => x.id) db j :=
  findBy_append_other (fun hh => hj hh.symm)

theorem findBy_flowDb2_other (db : List AnalysisDbRow) (url newId now j : String)
    (hj : j ≠ newId) :
    findBy (fun x : AnalysisDbRow => x.id) (flowDb2 db url newId now) j
      = findBy (fun x : AnalysisDbRow => x.id) db j := by
  show findBy _ (replaceBy _ (flowDb1 db url newId now) newId (flowRow2 url newId now)) j = _
  rw [findBy_replaceBy_other hj rfl, findBy_flowDb1_other db url newId now j hj]

theorem findBy_flowDbFail_other (db : List AnalysisDbRow) (url newId now j : String)
    (hj : j ≠ newId) :
    findBy (fun x : AnalysisDbRow => x.id) (flowDbFail db url newId now) j
      = findBy (fun x : AnalysisDbRow => x.id) db j := by
  show findBy _ (replaceBy _ (flowDb2 db url newId now) newId (flowRowFail url newId now)) j = _
  rw [findBy_replaceBy_other hj rfl, findBy_flowDb2_other db url newId now j hj]

theorem findBy_flowDb3_other (db : List AnalysisDbRow) (url newId now j : String)
    (pd : PageData) (hj : j ≠ newId) :
    findBy (fun x : AnalysisDbRow => x.id) (flowDb3 db url newId now pd) j
      = findBy (fun x : AnalysisDbRow => x.id) db j := by
  show findBy _ (replaceBy _ (flowDb2 db url newId now) newId (flowRow3 url newId now pd)) j = _
  rw [findBy_replaceBy_other hj rfl, findBy_flowDb2_other db url newId now j hj]

theorem findBy_flowDb4_other (db : List AnalysisDbRow) (url newId now j : String)
    (pd : PageData) (analysisText : String) (hj : j ≠ newId) :
    findBy (fun x : AnalysisDbRow => x.id) (flowDb4 db url newId now pd analysisText) j
      = findBy (fun x : AnalysisDbRow => x.id) db j := by
  show findBy _
    (replaceBy _ (flowDb3 db url newId now pd) newId (flowRow4 url newId now pd analysisText)) j = _
  rw [findBy_replaceBy_other hj rfl, findBy_flowDb3_other db url newId now j pd hj]

end CroRoute

/-- A pipeline run in which `fastify.croService` is not registered. -/
def croUnavailableScenario : CroRoute.Scenario :=
  { croAvailable := false
    scrape := Except.ok { html := "", text := "" }
    llm := Except.ok ""
    pdf := Except.ok () }

/-- C5: (a) a stored record with status `'completed'` is completely
untouched by any analyze-flow run on a fresh id — in particular its status
never moves back to `'pending'`/`'processing'`; (b) within a run, the new
record's status trace never follows `'completed'` with anything but
`'completed'`; (c) `'failed'` is reachable from both non-terminal statuses:
the unavailable-service run traces pending → processing → failed. -/
theorem claim5_no_status_regression :
    (∀ (db : List AnalysisDbRow) (r : AnalysisDbRow) (url : String)
      (sc : CroRoute.Scenario) (newId now : String),
      (∀ x ∈ db, x.id ≠ newId) →
      findBy (fun x : AnalysisDbRow => x.id) db r.id = some r →
      r.status = Status.completed →
      ∀ d ∈ (CroRoute.analyzeRun db url sc newId now).2,
        findBy (fun x : AnalysisDbRow => x.id) d r.id = some r)
    ∧ (∀ (db : List AnalysisDbRow) (url : String) (sc : CroRoute.Scenario)
      (newId now : String),
      (∀ x ∈ db, x.id ≠ newId) →
      List.Pairwise (fun a b => a = some Status.completed → b = some Status.completed)
        (((CroRoute.analyzeRun db url sc newId now).2).map (fun d => statusOf d newId)))
    ∧ (((CroRoute.analyzeRun [] "https://example.com" croUnavailableScenario "a1" "t0").2).map
        (fun d => statusOf d "a1")
        = [none, some Status.pending, some Status.processing, some Status.failed]) := by
  refine ⟨?_, ?_, by decide⟩
  · intro db r url sc newId now hfresh hr hc
    have hmem : r ∈ db := (findBy_mem hr).1
    have hrid : r.id ≠ newId := hfresh r hmem
    rw [CroRoute.analyzeRun_eq db url sc newId now hfresh]
    have hd1 := CroRoute.findBy_flowDb1_other db url newId now r.id hrid
    have hd2 := CroRoute.findBy_flowDb2_other db url newId now r.id hrid
    have hdF := CroRoute.findBy_flowDbFail_other db url newId now r.id hrid
    cases hcro : sc.croAvailable with
    | false =>
      intro d hd
      simp only [Bool.false_eq_true, if_false, List.mem_cons, List.mem_singleton] at hd
      rcases hd with hd | hd | hd | hd | hd
      · rw [hd]; exact hr
      · rw [hd, hd1]; exact hr
      · rw [hd, hd2]; exact hr
      · rw [hd, hdF]; exact hr
      · cases hd
    | true =>
      cases hscr : sc.scrape with
      | error e =>
        intro d hd
        simp only [if_true, List.mem_cons, List.mem_singleton] at hd
        rcases hd with hd | hd | hd | hd
        · rw [hd]; exact hr
        · rw [hd, hd1]; exact hr
        · rw [hd, hd2]; exact hr
        · cases hd
      | ok pd =>
        have hd3 := CroRoute.findBy_flowDb3_other db url newId now r.id pd hrid
        cases hllm : sc.llm with
        | error e =>
          intro d hd
          simp only [if_true, List.mem_cons, List.mem_singleton] at hd
          rcases hd with hd | hd | hd | hd | hd
          · rw [hd]; exact hr
          · rw [hd, hd1]; exact hr
          · rw [hd, hd2]; exact hr
          · rw [hd, hd3]; exact hr
          · cases hd
        | ok analysisText =>
          have hd4 := CroRoute.findBy_flowDb4_other db url newId now r.id pd analysisText hrid
          cases hpdf : sc.pdf with
          | error e =>
            intro d hd
            simp only [if_true, List.mem_cons, List.mem_singleton] at hd
            rcases hd with hd | hd | hd | hd | hd
            · rw [hd]; exact hr
            · rw [hd, hd1]; exact hr
            · rw [hd, hd2]; exact hr
            · rw [hd, hd3]; exact hr
            · cases hd
          | ok u =>
            intro d hd
            simp only [if_true, List.mem_cons, List.mem_singleton] at hd
            rcases hd with hd | hd | hd | hd | hd | hd
            · rw [hd]; exact hr
            · rw [hd, hd1]; exact hr
            · rw [hd, hd2]; exact hr
            · rw [hd, hd3]; exact hr
            · rw [hd, hd4]; exact hr
            · cases hd
  · intro db url sc newId now hfresh
    have h0 : statusOf db newId = none := by
      unfold statusOf
      rw [findBy_eq_none hfresh]
      rfl
    have h1 : statusOf (CroRoute.flowDb1 db url newId now) newId = some Status.pending := by
      unfold statusOf
      rw [CroRoute.findBy_flowDb1 db url newId now hfresh]
      rfl
    have h2 : statusOf (CroRoute.flowDb2 db url newId now) newId = some Status.processing := by
      unfold statusOf
      rw [CroRoute.findBy_flowDb2 db url newId now hfresh]
      rfl
    have hF : statusOf (CroRoute.flowDbFail db url newId now) newId = some Status.failed := by
      unfold statusOf
      rw [CroRoute.findBy_flowDbFail db url newId now hfresh]
      rfl
    rw [CroRoute.analyzeRun_eq db url sc newId now hfresh]
    cases hcro : sc.croAvailable with
    | false =>
      simp only [Bool.false_eq_true, if_false, List.map]
      rw [h0, h1, h2, hF]
      decide
    | true =>
      cases hscr : sc.scrape with
      | error e =>
        simp only [if_true, List.map]
        rw [h0, h1, h2]
        decide
      | ok pd =>
        have h3 : statusOf (CroRoute.flowDb3 db url newId now pd) newId
            = some Status.processing := by
          unfold statusOf
          rw [CroRoute.findBy_flowDb3 db url newId now pd hfresh]
          rfl
        cases hllm : sc.llm with
        | error e =>
          simp only [if_true, List.map]
          rw [h0, h1, h2, h3]
          decide
        | ok analysisText =>
          have h4 : statusOf (CroRoute.flowDb4 db url newId now pd analysisText) newId
              = some Status.completed := by
            unfold statusOf
            rw [CroRoute.findBy_flowDb4 db url newId now pd analysisText hfresh]
            rfl
          cases hpdf : sc.pdf with
          | error e =>
            simp only [if_true, List.map]
            rw [h0, h1, h2, h3]
            decide
          | ok u =>
            simp only [if_true, List.map]
            rw [h0, h1, h2, h3, h4]
            decide

/-- C5 witness: a completed record survives a concrete successful run on a
fresh id untouched, and the trace property holds there. -/
theorem claim5_witness :
    ((∀ x ∈ [ownedRowC1], x.id ≠ "b2") ∧
      findBy (fun x : AnalysisDbRow => x.id) [ownedRowC1] ownedRowC1.id = some ownedRowC1 ∧
      ownedRowC1.status = Status.completed) ∧
    (∀ d ∈ (CroRoute.analyzeRun [ownedRowC1] "https://example.com" croUnavailableScenario
        "b2" "t0").2,
      findBy (fun x : AnalysisDbRow => x.id) d ownedRowC1.id = some ownedRowC1) ∧
    List.Pairwise (fun a b => a = some Status.completed → b = some Status.completed)
      (((CroRoute.analyzeRun [ownedRowC1] "https://example.com" croUnavailableScenario
          "b2" "t0").2).map (fun d => statusOf d "b2")) :=
  ⟨⟨by decide, by decide, by decide⟩,
    claim5_no_status_regression.1 [ownedRowC1] ownedRowC1 "https://example.com"
      croUnavailableScenario "b2" "t0" (by decide) (by decide) (by decide),
    claim5_no_status_regression.2.1 [ownedRowC1] "https://example.com"
      croUnavailableScenario "b2" "t0" (by decide)⟩

theorem createIndexIfNotExists_users (d : Db) (n t : String) :
    (createIndexIfNotExists d n t).users = d.users := by
  unfold createIndexIfNotExists
  split <;> rfl

theorem createIndexIfNotExists_analyses (d : Db) (n t : String) :
    (createIndexIfNotExists d n t).analyses = d.analyses := by
  unfold createIndexIfNotExists
  split <;> rfl

/-- C2: starting from an analyses table that lacks the ownership column and
holds `rows`, with an existing but empty users table, the sqlite rewrite
migration leaves exactly one user — the synthesized `default-admin-user`
with role `'admin'` — and every migrated row is the original row with only
`user_id` set to that admin's id (all other columns preserved; the
`row.metadata || '\x7b\x7d'` / `row.status || 'pending'` fallbacks never fire on
rows whose NOT NULL text columns are nonempty). -/
theorem claim2_migration_synthesizes_admin :
    ∀ (rows : List RawRow) (idx : List IndexEntry) (now : String),
    (∀ r ∈ rows, r.metadata ≠ "" ∧ r.status ≠ "") →
    ∃ admin : UserRow,
      (DatabaseService.recreateAnalysesTableWithUserId
        { users := some [], analyses := some (false, rows), indexes := idx } now).users
        = some [admin] ∧
      admin.role = "admin" ∧
      (DatabaseService.recreateAnalysesTableWithUserId
        { users := some [], analyses := some (false, rows), indexes := idx } now).analyses
        = some (true, rows.map (fun r => { r with user_id := some admin.id })) := by
  intro rows idx now h
  refine ⟨{ id := "default-admin-user"
            email := "admin@cro-analyzer.com"
            password := "default-password-hash"
            first_name := "Default"
            last_name := "Admin"
            role := "admin"
            is_active := true
            last_login_at := none
            created_at := now
            updated_at := now }, ?_, rfl, ?_⟩
  · unfold DatabaseService.recreateAnalysesTableWithUserId
    simp only [createIndexIfNotExists_users]
    rfl
  · unfold DatabaseService.recreateAnalysesTableWithUserId
    simp only [createIndexIfNotExists_users, createIndexIfNotExists_analyses]
    show some (true, rows.map _) = some (true, rows.map _)
    refine congrArg some (congrArg (fun l => (true, l)) ?_)
    refine List.map_congr_left ?_
    intro r hr
    obtain ⟨hm, hs⟩ := h r hr
    show ({ r with
        user_id := some "default-admin-user"
        metadata := if r.metadata = "" then "\x7b\x7d" else r.metadata
        status := if r.status = "" then "pending" else r.status } : RawRow) = _
    rw [if_neg hm, if_neg hs]

/-- Concrete legacy analyses row (no ownership column) for the C2 witness. -/
def legacyRowC2 : RawRow :=
  { id := "a9"
    user_id := none
    url := "https://old.example"
    page_title := none
    analysis := some "text"
    pdf_path := none
    metadata := "\x7b\x7d"
    status := "completed"
    error_message := none
    created_at := "t0"
    updated_at := "t1" }

/-- Concrete starting state for the C2 witness: empty users table, legacy
analyses table with one row and no ownership column. -/
def legacyDbC2 : Db :=
  { users := some []
    analyses := some (false, [legacyRowC2])
    indexes := [] }

/-- C2 witness: one concrete legacy row and an empty users table. -/
theorem claim2_witness :
    (∀ r ∈ [legacyRowC2], r.metadata ≠ "" ∧ r.status ≠ "") ∧
    ∃ admin : UserRow,
      (DatabaseService.recreateAnalysesTableWithUserId legacyDbC2 "t2").users
        = some [admin] ∧
      admin.role = "admin" ∧
      (DatabaseService.recreateAnalysesTableWithUserId legacyDbC2 "t2").analyses
        = some (true, [legacyRowC2].map (fun r => { r with user_id := some admin.id })) :=
  ⟨by decide, claim2_migration_synthesizes_admin [legacyRowC2] [] "t2" (by decide)⟩

theorem ensureUsersTable_noop {d : Db} {l : List UserRow} (h : d.users = some l) :
    ensureUsersTable d = d := by
  cases d with
  | mk u a i =>
    replace h : u = some l := h
    subst h
    rfl

theorem createIndexIfNotExists_noop {d : Db} {n : String} (t : String)
    (h : (d.indexes.any fun e => e.name = n) = true) :
    createIndexIfNotExists d n t = d := by
  unfold createIndexIfNotExists
  rw [h]
  simp

theorem createIndexIfNotExists_any_mono {d : Db} {p : IndexEntry → Bool} (n t : String)
    (h : (d.indexes.any p) = true) :
    ((createIndexIfNotExists d n t).indexes.any p) = true := by
  unfold createIndexIfNotExists
  split
  · exact h
  · simp only [List.any_append, h, Bool.true_or]

/-- An index named `n` that does not sit on the `analyses` table (and will
therefore survive a `DROP TABLE analyses`). -/
def goodIdx (n : String) (d : Db) : Prop :=
  ∃ e ∈ d.indexes, e.name = n ∧ e.tbl ≠ "analyses"

theorem goodIdx_ci {m : String} {d : Db} (n t : String) (hg : goodIdx m d) :
    goodIdx m (createIndexIfNotExists d n t) := by
  obtain ⟨e, he, hn, ht⟩ := hg
  unfold createIndexIfNotExists
  split
  · exact ⟨e, he, hn, ht⟩
  · exact ⟨e, by simp only [List.mem_append]; exact Or.inl he, hn, ht⟩

theorem goodIdx_ci_self {d : Db} {n : String} (t : String)
    (hH : ∀ e ∈ d.indexes, e.name = n → e.tbl ≠ "analyses") (ht : t ≠ "analyses") :
    goodIdx n (createIndexIfNotExists d n t) := by
  unfold createIndexIfNotExists
  split
  · rename_i h
    rw [List.any_eq_true] at h
    obtain ⟨e, he, hn⟩ := h
    rw [decide_eq_true_eq] at hn
    exact ⟨e, he, hn, hH e he hn⟩
  · refine ⟨{ name := n, tbl := t }, ?_, rfl, ht⟩
    simp

theorem hH_ci {d : Db} {n : String} (m t : String) (ht : t ≠ "analyses")
    (hH : ∀ e ∈ d.indexes, e.name = n → e.tbl ≠ "analyses") :
    ∀ e ∈ (createIndexIfNotExists d m t).indexes, e.name = n → e.tbl ≠ "analyses" := by
  unfold createIndexIfNotExists
  split
  · exact hH
  · intro e he hn
    simp only [List.mem_append, List.mem_singleton] at he
    rcases he with he | he
    · exact hH e he hn
    · subst he
      exact ht

theorem goodIdx_any {n : String} {d : Db} (hg : goodIdx n d) :
    (d.indexes.any fun e => e.name = n) = true := by
  obtain ⟨e, he, hn, _⟩ := hg
  rw [List.any_eq_true]
  exact ⟨e, he, by simp [hn]⟩

theorem goodIdx_recreate_any {n : String} {d : Db} (now : String) (hg : goodIdx n d) :
    ((DatabaseService.recreateAnalysesTableWithUserId d now).indexes.any
      fun e => e.name = n) = true := by
  have hg4 : goodIdx n
      (createIndexIfNotExists
        (createIndexIfNotExists
          (createIndexIfNotExists
            (createIndexIfNotExists d "idx_analyses_user_id" "analyses_new")
            "idx_analyses_status" "analyses_new")
          "idx_analyses_created_at" "analyses_new")
        "idx_analyses_url" "analyses_new") :=
    goodIdx_ci _ _ (goodIdx_ci _ _ (goodIdx_ci _ _ (goodIdx_ci _ _ hg)))
  obtain ⟨e, he, hn, ht⟩ := hg4
  unfold DatabaseService.recreateAnalysesTableWithUserId
  rw [List.any_eq_true]
  refine ⟨if e.tbl = "analyses_new" then { e with tbl := "analyses" } else e, ?_, ?_⟩
  · apply List.mem_map.2
    refine ⟨e, ?_, rfl⟩
    exact List.mem_filter.2 ⟨he, by simp [ht]⟩
  · split <;> simp [hn]

theorem migrate_users_some {d : Db} (now : String) (h : ∃ l, d.users = some l) :
    ∃ l, (DatabaseService.migrateAnalysesTable d now).users = some l := by
  obtain ⟨l, hl⟩ := h
  unfold DatabaseService.migrateAnalysesTable
  rcases hA : d.analyses with _ | ⟨b, rows⟩
  · exact ⟨l, by simp [createIndexIfNotExists_users, hl]⟩
  · cases b
    · exact ⟨_, rfl⟩
    · exact ⟨l, hl⟩

theorem migrate_analyses_true {d : Db} (now : String) :
    ∃ rows, (DatabaseService.migrateAnalysesTable d now).analyses
      = some (true, rows) := by
  unfold DatabaseService.migrateAnalysesTable
  rcases hA : d.analyses with _ | ⟨b, rows⟩
  · exact ⟨[], by simp [createIndexIfNotExists_analyses]⟩
  · cases b
    · exact ⟨_, rfl⟩
    · exact ⟨rows, hA⟩

theorem migrate_noop {d : Db} {rows : List RawRow} (now : String)
    (h : d.analyses = some (true, rows)) :
    DatabaseService.migrateAnalysesTable d now = d := by
  simp [DatabaseService.migrateAnalysesTable, h]

theorem migrate_any {d : Db} {n : String} (now : String) (hg : goodIdx n d) :
    ((DatabaseService.migrateAnalysesTable d now).indexes.any
      fun e => e.name = n) = true := by
  unfold DatabaseService.migrateAnalysesTable
  rcases hA : d.analyses with _ | ⟨b, rows⟩
  · apply createIndexIfNotExists_any_mono
    apply createIndexIfNotExists_any_mono
    apply createIndexIfNotExists_any_mono
    apply createIndexIfNotExists_any_mono
    exact goodIdx_any hg
  · cases b
    · exact goodIdx_recreate_any now hg
    · exact goodIdx_any hg

theorem p0run_noop {d : Db} (now : String)
    (hu : ∃ l, d.users = some l)
    (ha : ∃ rows, d.analyses = some (true, rows))
    (he : (d.indexes.any fun e => e.name = "idx_users_email") = true)
    (hr : (d.indexes.any fun e => e.name = "idx_users_role") = true)
    (hia : (d.indexes.any fun e => e.name = "idx_users_is_active") = true) :
    DatabaseService.runMigrations d now = d := by
  obtain ⟨l, hl⟩ := hu
  obtain ⟨rows, hrows⟩ := ha
  unfold DatabaseService.runMigrations
  rw [ensureUsersTable_noop hl, createIndexIfNotExists_noop _ he,
    createIndexIfNotExists_noop _ hr, createIndexIfNotExists_noop _ hia]
  exact migrate_noop now hrows

theorem p0run_users_some (db : Db) (now : String) :
    ∃ l, (DatabaseService.runMigrations db now).users = some l := by
  unfold DatabaseService.runMigrations
  apply migrate_users_some
  exact ⟨db.users.getD [], by simp [createIndexIfNotExists_users, ensureUsersTable]⟩

theorem p0run_analyses_true (db : Db) (now : String) :
    ∃ rows, (DatabaseService.runMigrations db now).analyses = some (true, rows) := by
  unfold DatabaseService.runMigrations
  exact migrate_analyses_true now

theorem p0run_userIdx_email (db : Db) (now : String)
    (H : ∀ e ∈ db.indexes, e.name = "idx_users_email" → e.tbl ≠ "analyses") :
    ((DatabaseService.runMigrations db now).indexes.any
      fun e => e.name = "idx_users_email") = true := by
  unfold DatabaseService.runMigrations
  apply migrate_any
  apply goodIdx_ci
  apply goodIdx_ci
  exact goodIdx_ci_self "users" H (by decide)

theorem p0run_userIdx_role (db : Db) (now : String)
    (H : ∀ e ∈ db.indexes, e.name = "idx_users_role" → e.tbl ≠ "analyses") :
    ((DatabaseService.runMigrations db now).indexes.any
      fun e => e.name = "idx_users_role") = true := by
  unfold DatabaseService.runMigrations
  apply migrate_any
  apply goodIdx_ci
  apply goodIdx_ci_self "users" _ (by decide)
  exact hH_ci "idx_users_email" "users" (by decide) H

theorem p0run_userIdx_active (db : Db) (now : String)
    (H : ∀ e ∈ db.indexes, e.name = "idx_users_is_active" → e.tbl ≠ "analyses") :
    ((DatabaseService.runMigrations db now).indexes.any
      fun e => e.name = "idx_users_is_active") = true := by
  unfold DatabaseService.runMigrations
  apply migrate_any
  apply goodIdx_ci_self "users" _ (by decide)
  apply hH_ci "idx_users_role" "users" (by decide)
  exact hH_ci "idx_users_email" "users" (by decide) H

/-- `CREATE INDEX IF NOT EXISTS` at the index-list level (used to state the
net index effect of `MigrationService.recreateAnalysesTable`). -/
def listCreateIdx (l : List IndexEntry) (n t : String) : List IndexEntry :=
  if l.any (fun e => e.name = n) then l else l ++ [{ name := n, tbl := t }]

theorem createIndexIfNotExists_indexes (d : Db) (n t : String) :
    (createIndexIfNotExists d n t).indexes = listCreateIdx d.indexes n t := by
  unfold createIndexIfNotExists listCreateIdx
  split <;> rfl

theorem ms_components (d : Db) (now : String) :
    (MigrationService.runMigrations d now).users
        = (MigrationService.createDefaultUserIfNeeded d.users now).2
    ∧ (MigrationService.runMigrations d now).analyses
        = some (true, (((d.analyses).map (fun p => p.2)).getD []).map
            (fun r => { r with
              user_id := some (MigrationService.createDefaultUserIfNeeded d.users now).1 }))
    ∧ (MigrationService.runMigrations d now).indexes
        = listCreateIdx (listCreateIdx (listCreateIdx (listCreateIdx
            (d.indexes.filter (fun e => e.tbl ≠ "analyses"))
            "idx_analyses_user_id" "analyses") "idx_analyses_status" "analyses")
            "idx_analyses_created_at" "analyses") "idx_analyses_url" "analyses" := by
  refine ⟨?_, ?_, ?_⟩
  · simp only [MigrationService.runMigrations, MigrationService.recreateAnalysesTable,
      createIndexIfNotExists_users]
  · simp only [MigrationService.runMigrations, MigrationService.recreateAnalysesTable,
      createIndexIfNotExists_users, createIndexIfNotExists_analyses]
  · simp only [MigrationService.runMigrations, MigrationService.recreateAnalysesTable,
      createIndexIfNotExists_indexes]

theorem ms_createDefault_stable (us : Option (List UserRow)) (n1 n2 : String) :
    MigrationService.createDefaultUserIfNeeded
      ((MigrationService.createDefaultUserIfNeeded us n1).2) n2
      = MigrationService.createDefaultUserIfNeeded us n1 := by
  rcases us with _ | l
  · rfl
  · rcases l with _ | ⟨u, t⟩
    · rfl
    · rfl

theorem filter_listCreateIdx (l : List IndexEntry) (n : String) :
    (listCreateIdx l n "analyses").filter (fun e => e.tbl ≠ "analyses")
      = l.filter (fun e => e.tbl ≠ "analyses") := by
  unfold listCreateIdx
  split
  · rfl
  · simp [List.filter_append]

theorem filter_tbl_idem (l : List IndexEntry) :
    (l.filter (fun e => e.tbl ≠ "analyses")).filter (fun e => e.tbl ≠ "analyses")
      = l.filter (fun e => e.tbl ≠ "analyses") := by
  rw [List.filter_eq_self]
  intro a ha
  exact (List.mem_filter.1 ha).2

theorem map_setUserId_idem (E : List RawRow) (v : Option String) :
    ((E.map (fun r => { r with user_id := v })).map (fun r => { r with user_id := v }))
      = E.map (fun r => { r with user_id := v }) := by
  rw [List.map_map]
  apply List.map_congr_left
  intro a _
  rfl

theorem ms_idem (db : Db) (n1 n2 : String) :
    MigrationService.runMigrations (MigrationService.runMigrations db n1) n2
      = MigrationService.runMigrations db n1 := by
  obtain ⟨hu1, ha1, hi1⟩ := ms_components db n1
  obtain ⟨hu2, ha2, hi2⟩ := ms_components (MigrationService.runMigrations db n1) n2
  apply Db.ext
  · rw [hu2, hu1, ms_createDefault_stable]
  · rw [ha2, ha1, hu1, ms_createDefault_stable]
    simp only [Option.map_some', Option.getD_some]
    rw [map_setUserId_idem]
  · rw [hi2, hi1]
    rw [filter_listCreateIdx, filter_listCreateIdx, filter_listCreateIdx,
      filter_listCreateIdx, filter_tbl_idem]

/-- C3: both schema bring-up procedures are idempotent at the state level.
A second run of `DatabaseServiceImpl.runMigrations` is a no-op (tables,
indexes and all rows of both tables unchanged), provided no pre-existing
index usurps one of the three `idx_users_*` names while sitting on the
`analyses` table (such an index would be dropped with the table rewrite and
recreated on `users` by the next run). `MigrationService.runMigrations`
(sqlite path) drops and rebuilds the analyses table on every run, but a
second run reproduces the exact same state: same tables, same index set (no
duplicates), same rows including ownership assignments. -/
theorem claim3_migration_idempotent :
    (∀ (db : Db) (n1 n2 : String),
      (∀ e ∈ db.indexes,
        (e.name = "idx_users_email" ∨ e.name = "idx_users_role" ∨
          e.name = "idx_users_is_active") → e.tbl ≠ "analyses") →
      DatabaseService.runMigrations (DatabaseService.runMigrations db n1) n2
        = DatabaseService.runMigrations db n1)
    ∧ (∀ (db : Db) (n1 n2 : String),
      MigrationService.runMigrations (MigrationService.runMigrations db n1) n2
        = MigrationService.runMigrations db n1) := by
  constructor
  · intro db n1 n2 H
    apply p0run_noop
    · exact p0run_users_some db n1
    · exact p0run_analyses_true db n1
    · exact p0run_userIdx_email db n1 (fun e he hn => H e he (Or.inl hn))
    · exact p0run_userIdx_role db n1 (fun e he hn => H e he (Or.inr (Or.inl hn)))
    · exact p0run_userIdx_active db n1 (fun e he hn => H e he (Or.inr (Or.inr hn)))
  · exact ms_idem

/-- C3 witness: a second run on the migrated legacy database (one legacy
row, empty users table, no indexes) changes nothing, for both procedures. -/
theorem claim3_witness :
    (∀ e ∈ legacyDbC2.indexes,
      (e.name = "idx_users_email" ∨ e.name = "idx_users_role" ∨
        e.name = "idx_users_is_active") → e.tbl ≠ "analyses") ∧
    DatabaseService.runMigrations (DatabaseService.runMigrations legacyDbC2 "t1") "t2"
      = DatabaseService.runMigrations legacyDbC2 "t1" ∧
    MigrationService.runMigrations (MigrationService.runMigrations legacyDbC2 "t1") "t2"
      = MigrationService.runMigrations legacyDbC2 "t1" :=
  ⟨by simp [legacyDbC2], claim3_migration_idempotent.1 legacyDbC2 "t1" "t2"
    (by simp [legacyDbC2]), claim3_migration_idempotent.2 legacyDbC2 "t1" "t2"⟩
